import Mathlib

/-!
Shallow embedding of the schema validator (`validators.py`) and the model
compiler (`model_builder.py`) of `auto_structured_output`, together with the
shared type/format vocabulary of `model.py`.

JSON documents are modelled by the inductive `JSON`; Python dicts are ordered
association lists.  Numbers are modelled as integers (no claim depends on
non-integral numerics).  Python exceptions are modelled by `Except String`,
the string being the exception message; a raised `KeyError`, `TypeError` or
`AttributeError` is an `.error` as well.  The mutual recursion of the compiler
and the validator over nested schemas is driven by an explicit fuel counter;
every claim is stated for arbitrary sufficient fuel.
-/

namespace AutoStructuredOutput

/-- A JSON value.  Objects keep insertion order, like Python dicts. -/
inductive JSON where
  | null : JSON
  | bool (b : Bool) : JSON
  | num (n : Int) : JSON
  | str (s : String) : JSON
  | arr (items : List JSON) : JSON
  | obj (fields : List (String × JSON)) : JSON

/-- First-match lookup in an ordered association list (Python dict access). -/
def lookupKV : List (String × JSON) → String → Option JSON
  | [], _ => none
  | (k', v) :: rest, k => if k' = k then some v else lookupKV rest k

/-- `d.get(k)`: `some v` when the key is present, `none` when missing or when
the receiver is not a dict. -/
def JSON.lookup : JSON → String → Option JSON
  | .obj kvs, k => lookupKV kvs k
  | _, _ => none

/-- Python truthiness of a JSON value. -/
def JSON.truthy : JSON → Bool
  | .null => false
  | .bool b => b
  | .num n => n != 0
  | .str s => !(s == "")
  | .arr l => !l.isEmpty
  | .obj l => !l.isEmpty

mutual

/-- Python `repr` of a JSON value (used for elements of containers). -/
def pyRepr : JSON → String
  | .null => "None"
  | .bool true => "True"
  | .bool false => "False"
  | .num n => toString n
  | .str s => "\x27" ++ s ++ "\x27"
  | .arr l => "[" ++ pyReprList l ++ "]"
  | .obj l => "\x7b" ++ pyReprObj l ++ "\x7d"

def pyReprList : List JSON → String
  | [] => ""
  | [x] => pyRepr x
  | x :: xs => pyRepr x ++ ", " ++ pyReprList xs

def pyReprObj : List (String × JSON) → String
  | [] => ""
  | [(k, v)] => "\x27" ++ k ++ "\x27: " ++ pyRepr v
  | (k, v) :: xs => "\x27" ++ k ++ "\x27: " ++ pyRepr v ++ ", " ++ pyReprObj xs

end

/-- Python `str` of a JSON value: like `repr` except that a top-level string
is rendered without quotes.  This is the cast used by `validate_enum` for the
duplicate test and by the f-string error messages. -/
def pyStr : JSON → String
  | .str s => s
  | v => pyRepr v

/-! ## `model.py`: the shared vocabulary -/

/-- The values of the `SupportedType` enum, in declaration order.  Note that
the enum includes the structural keywords `"enum"` and `"anyOf"` alongside the
seven primitive type names. -/
def supportedTypeValues : List String :=
  ["string", "number", "integer", "boolean", "object", "array", "null", "enum", "anyOf"]

/-- `SupportedType.is_supported_type` applied to an arbitrary JSON value: a
Python `==` comparison of each enum value against the argument, which is true
only for one of the nine member strings. -/
def is_supported_type (v : JSON) : Bool :=
  match v with
  | .str s => supportedTypeValues.contains s
  | _ => false

/-- The values of the `StringFormat` enum. -/
def stringFormatValues : List String :=
  ["date-time", "date", "time", "duration", "email", "hostname", "ipv4", "ipv6", "uuid"]

/-- `StringFormat.is_supported_format` on an arbitrary JSON value. -/
def is_supported_format (v : JSON) : Bool :=
  match v with
  | .str s => stringFormatValues.contains s
  | _ => false

/-- The default marker of a compiled field: `ellipsis` is pydantic `...`
(mandatory, no default); `value v` is an attached default value. -/
inductive FieldDefault where
  | ellipsis : FieldDefault
  | value (v : JSON) : FieldDefault

/-- Python `v == s` where `s` is a string literal: true exactly when `v` is
that string. -/
def JSON.isStr (v : JSON) (s : String) : Bool :=
  match v with
  | .str t => t == s
  | _ => false

/-- The Python types the compiler can produce.  `union a b` is `a | b`
(folded left over a list of members), `literal vs` is `Literal[tuple(vs)]`,
and `model name fields` is a `pydantic.BaseModel` subclass built by
`create_model`; each compiled field carries its name, annotation, default
marker and (truthy) `description` value. -/
inductive PyType where
  | strT : PyType
  | intT : PyType
  | floatT : PyType
  | boolT : PyType
  | listT : PyType
  | dictT : PyType
  | noneT : PyType
  | datetimeT : PyType
  | dateT : PyType
  | timeT : PyType
  | listOf (t : PyType) : PyType
  | union (a b : PyType) : PyType
  | literal (vs : List JSON) : PyType
  | model (name : String) (fields : List (String × PyType × FieldDefault × Option JSON)) : PyType

/-- `SupportedType.to_type_mapping`: the primitive dict of `model.py`.
`none` models the `KeyError` raised when the member value is not a key of the
dict — which happens exactly for `"enum"` and `"anyOf"`. -/
def to_type_mapping : String → Option PyType
  | "string" => some .strT
  | "integer" => some .intT
  | "number" => some .floatT
  | "boolean" => some .boolT
  | "array" => some .listT
  | "object" => some .dictT
  | "null" => some .noneT
  | _ => none

/-- `StringFormat.to_format_mapping`: the format dict of `model.py`.  All
nine supported formats are keys, so no `KeyError` is reachable through it. -/
def to_format_mapping : String → Option PyType
  | "date-time" => some .datetimeT
  | "date" => some .dateT
  | "time" => some .timeT
  | "duration" => some .strT
  | "email" => some .strT
  | "hostname" => some .strT
  | "ipv4" => some .strT
  | "ipv6" => some .strT
  | "uuid" => some .strT
  | _ => none

/-- `isinstance(v, (int, float))`: Python `bool` is a subclass of `int`. -/
def isPyNumber : JSON → Bool
  | .num _ => true
  | .bool _ => true
  | _ => false

/-- `isinstance(v, int)`: again `bool` counts as `int`. -/
def isPyInt : JSON → Bool
  | .num _ => true
  | .bool _ => true
  | _ => false

/-- Numeric value of an int-like JSON value (`True` is `1`, `False` is `0`). -/
def pyNumVal : JSON → Int
  | .num n => n
  | .bool b => if b then 1 else 0
  | _ => 0

namespace SchemaValidator

/-- `SchemaValidator.validate_type`: a type value is either a list whose every
element is a supported type, or a single supported type; the first unsupported
element raises. -/
def validate_type (type_value : JSON) : Except String Bool :=
  match type_value with
  | .arr ts =>
      match ts.findSome? (fun t => if is_supported_type t then none else some t) with
      | some t => .error ("Type not supported: " ++ pyStr t)
      | none => .ok true
  | v =>
      if is_supported_type v then .ok true
      else .error ("Type not supported: " ++ pyStr v)

/-- `SchemaValidator.validate_string_format`. -/
def validate_string_format (format_value : JSON) : Except String Bool :=
  if is_supported_format format_value then .ok true
  else .error ("String format not supported: " ++ pyStr format_value)

/-- `SchemaValidator.validate_number_constraints` on the field's key/value
pairs. -/
def validate_number_constraints (constraints : List (String × JSON)) : Except String Bool := do
  let valid := ["multipleOf", "maximum", "exclusiveMaximum", "minimum", "exclusiveMinimum"]
  let meta := ["type", "description", "title", "default", "examples"]
  match constraints.findSome?
      (fun kv => if valid.contains kv.1 || meta.contains kv.1 then none else some kv.1) with
  | some k => throw ("Number constraint not supported: " ++ k)
  | none => pure ()
  match lookupKV constraints "multipleOf" with
  | some v =>
      if !isPyNumber v then throw "multipleOf must be a number"
      else if pyNumVal v ≤ 0 then throw "multipleOf must be a positive number"
      else pure ()
  | none => pure ()
  if (lookupKV constraints "maximum").isSome && (lookupKV constraints "exclusiveMaximum").isSome then
    throw "Cannot specify both maximum and exclusiveMaximum"
  if (lookupKV constraints "minimum").isSome && (lookupKV constraints "exclusiveMinimum").isSome then
    throw "Cannot specify both minimum and exclusiveMinimum"
  return true

/-- `SchemaValidator.validate_array_constraints` on the field's key/value
pairs. -/
def validate_array_constraints (constraints : List (String × JSON)) : Except String Bool := do
  let valid := ["minItems", "maxItems", "items"]
  let meta := ["type", "description", "title", "default", "examples"]
  match constraints.findSome?
      (fun kv => if valid.contains kv.1 || meta.contains kv.1 then none else some kv.1) with
  | some k => throw ("Array constraint not supported: " ++ k)
  | none => pure ()
  match lookupKV constraints "minItems" with
  | some v =>
      if !isPyInt v then throw "minItems must be an integer"
      else if pyNumVal v < 0 then throw "minItems must be 0 or greater"
      else pure ()
  | none => pure ()
  match lookupKV constraints "maxItems" with
  | some v =>
      if !isPyInt v then throw "maxItems must be an integer"
      else if pyNumVal v < 0 then throw "maxItems must be 0 or greater"
      else pure ()
  | none => pure ()
  match lookupKV constraints "minItems", lookupKV constraints "maxItems" with
  | some lo, some hi =>
      if pyNumVal lo > pyNumVal hi then
        throw "minItems must be less than or equal to maxItems"
      else pure ()
  | _, _ => pure ()
  return true

/-- `SchemaValidator.validate_required_fields`: every entry must be a string
naming a key of `properties`. -/
def validate_required_fields (required : JSON) (properties : List (String × JSON)) :
    Except String Bool :=
  match required with
  | .arr fields => do
      fields.forM (fun f =>
        match f with
        | .str s =>
            if (lookupKV properties s).isNone then
              throw ("Required field \x27" ++ s ++ "\x27 is not defined in properties")
            else pure ()
        | v => throw ("Required field name must be a string: " ++ pyStr v))
      return true
  | _ => .error "required must be a list"

/-- `SchemaValidator.validate_enum`: a non-empty list with no duplicates,
duplicates being detected by Python `str`-cast equality
(`len(enum_values) != len(set(map(str, enum_values)))`). -/
def validate_enum (enum_values : JSON) : Except String Bool :=
  match enum_values with
  | .arr vs =>
      if vs.length = 0 then .error "enum must have at least one value"
      else if vs.length ≠ (vs.map pyStr).dedup.length then .error "enum values contain duplicates"
      else .ok true
  | _ => .error "enum must be a list"

mutual

/-- `SchemaValidator._validate_properties`, fuel-indexed for the recursion
into nested object schemas. -/
def validate_properties : Nat → JSON → Except String Unit
  | 0, _ => .error "recursion limit exceeded"
  | fuel + 1, props =>
    match props with
    | .obj kvs => kvs.forM (fun kv => validate_field_info fuel kv.1 kv.2)
    | _ => .error "properties must be a dictionary"

/-- The body of `_validate_properties`' per-field loop: type (with format,
numeric, array and nested-object checks), then `enum`, then `anyOf`. -/
def validate_field_info : Nat → String → JSON → Except String Unit
  | 0, _, _ => .error "recursion limit exceeded"
  | fuel + 1, field_name, field_info =>
    match field_info with
    | .obj kvs => do
        (match lookupKV kvs "type" with
         | some field_type => do
             (match validate_type field_type with
              | .ok _ => pure ()
              | .error e => throw ("Invalid type for field \x27" ++ field_name ++ "\x27: " ++ e))
             (if field_type.isStr "string" then
                match lookupKV kvs "format" with
                | some fv =>
                    match validate_string_format fv with
                    | .ok _ => pure ()
                    | .error e =>
                        throw ("Invalid format for field \x27" ++ field_name ++ "\x27: " ++ e)
                | none => pure ()
              else pure ())
             (if field_type.isStr "number" || field_type.isStr "integer" then
                match validate_number_constraints kvs with
                | .ok _ => pure ()
                | .error e =>
                    throw ("Invalid constraints for field \x27" ++ field_name ++ "\x27: " ++ e)
              else pure ())
             (if field_type.isStr "array" then do
                (match validate_array_constraints kvs with
                 | .ok _ => pure ()
                 | .error e =>
                     throw ("Invalid array constraints for field \x27" ++ field_name ++ "\x27: " ++ e))
                (match lookupKV kvs "items" with
                 | some (.obj ikvs) =>
                     (match lookupKV ikvs "type" with
                      | some it =>
                          if it.isStr "object" then
                            match lookupKV ikvs "properties" with
                            | some p => validate_properties fuel p
                            | none => pure ()
                          else pure ()
                      | none => pure ())
                 | _ => pure ())
              else pure ())
             (if field_type.isStr "object" then
                match lookupKV kvs "properties" with
                | some p => validate_properties fuel p
                | none => pure ()
              else pure ())
         | none => pure ())
        (match lookupKV kvs "enum" with
         | some ev =>
             match validate_enum ev with
             | .ok _ => pure ()
             | .error e => throw ("Invalid enum for field \x27" ++ field_name ++ "\x27: " ++ e)
         | none => pure ())
        (match lookupKV kvs "anyOf" with
         | some (.arr _) => pure ()
         | some _ => throw ("\x27anyOf\x27 for field \x27" ++ field_name ++ "\x27 must be a list")
         | none => pure ())
    | _ => .error ("Field \x27" ++ field_name ++ "\x27 definition is invalid")

end

/-- `SchemaValidator.validate_schema`: root checks (`type` present and equal
to `"object"`, `properties` present), recursive property validation, then the
`required` check.  The schema argument is a dict, per the Python signature. -/
def validate_schema (fuel : Nat) (schema : JSON) : Except String JSON :=
  match schema.lookup "type" with
  | none => .error ("Schema must have a \x27type\x27 field")
  | some t =>
    if t.isStr "object" then
      match schema.lookup "properties" with
      | none => .error ("Schema must have a \x27properties\x27 field")
      | some props => do
          validate_properties fuel props
          (match schema.lookup "required" with
           | some req =>
               (match props with
                | .obj pkvs =>
                    (match validate_required_fields req pkvs with
                     | .ok _ => pure ()
                     | .error e => throw ("Invalid required fields: " ++ e))
                | _ => throw "unreachable: properties validated as a dictionary")
           | none => pure ())
          return schema
    else .error ("Top-level schema must be of type \x27object\x27")

end SchemaValidator

namespace ModelBuilder

/-- The format clause of `_get_field_type` (lines 106-108): when a `format`
key is present and its value is a supported format, the resolver returns the
format's mapped type immediately; otherwise (`none`) control falls through to
the array/object/primitive clauses.  This clause does not look at the field's
`type`. -/
def format_step (field_info : JSON) : Option (Except String PyType) :=
  match field_info.lookup "format" with
  | some (.str s) =>
      if stringFormatValues.contains s then
        some (match to_format_mapping s with
              | some t => Except.ok t
              | none => Except.error ("KeyError: \x27" ++ s ++ "\x27"))
      else none
  | some _ => none
  | none => none

/-- The list-of-types clause of `_get_field_type` (lines 89-103): each
supported entry is mapped through `to_type_mapping` (a `KeyError` for
`"enum"`/`"anyOf"`), unsupported entries fall back to `str`, and the
results are folded into a union; a singleton list collapses.  `types[0]` on
an empty list is an `IndexError`. -/
def resolve_type_list (ts : List JSON) : Except String PyType := do
  let types ← ts.mapM (fun t =>
    match t with
    | .str s =>
        if supportedTypeValues.contains s then
          match to_type_mapping s with
          | some pt => pure pt
          | none => Except.error ("KeyError: \x27" ++ s ++ "\x27")
        else pure PyType.strT
    | _ => pure PyType.strT)
  match types with
  | [] => .error "IndexError: list index out of range"
  | [t] => pure t
  | t :: rest => pure (rest.foldl PyType.union t)

/-- `ModelBuilder._handle_enum`: a falsy (empty) `enum` falls back to `str`;
a non-empty list becomes `Literal[tuple(enum_values)]`.  The `KeyError`
branch is unreachable from `_get_field_type`, which calls this only when the
`enum` key is present; non-list enum values are not modelled beyond being an
error. -/
def handle_enum (field_info : JSON) : Except String PyType :=
  match field_info.lookup "enum" with
  | some v =>
      if v.truthy then
        match v with
        | .arr l => .ok (PyType.literal l)
        | _ => .error "TypeError: enum value is not a list"
      else .ok PyType.strT
  | none => .error "KeyError: \x27enum\x27"

/-- The `description` value attached to a compiled field: the field's
`description` value when present and truthy (`if description:`), nothing
otherwise. -/
def field_description (field_info : JSON) : Option JSON :=
  match field_info.lookup "description" with
  | some v => if v.truthy then some v else none
  | none => none

/-- `set(schema.get("required", []))` as its underlying list: missing key
gives the empty list.  A non-list `required` value is not modelled (no claim
uses one). -/
def required_list (schema : JSON) : List JSON :=
  match schema.lookup "required" with
  | some (.arr l) => l
  | _ => []

/-- `model_name or field_info.get("title", "DynamicModel")` when `model_name`
is falsy: the `title` value if present (a non-string title would make
`create_model` fail; modelled as an error), else `"DynamicModel"`. -/
def default_model_name (schema : JSON) : Except String String :=
  match schema.lookup "title" with
  | some (.str s) => .ok s
  | some _ => .error "TypeError: model name must be a string"
  | none => .ok "DynamicModel"

mutual

/-- `ModelBuilder._get_field_type`, fuel-indexed: `anyOf` first, then `enum`,
then the `type` key (defaulting to `"string"`); a list type goes to the union
clause, otherwise the format clause runs before the array/object/primitive
clauses.  A non-dict field definition raises in Python (`.get` on a non-dict)
and is an error here. -/
def get_field_type : Nat → JSON → Except String PyType
  | 0, _ => .error "recursion limit exceeded"
  | fuel + 1, field_info =>
    match field_info with
    | .obj kvs =>
      (match lookupKV kvs "anyOf" with
       | some v => handle_any_of fuel v
       | none =>
         match lookupKV kvs "enum" with
         | some _ => handle_enum field_info
         | none =>
           let type_str := (lookupKV kvs "type").getD (JSON.str "string")
           match type_str with
           | .arr ts => resolve_type_list ts
           | _ =>
             match format_step field_info with
             | some r => r
             | none => resolve_plain fuel field_info type_str)
    | _ => .error "TypeError: field info is not a dict"

/-- The array/object/primitive clauses of `_get_field_type` (lines 111-121),
reached when no `anyOf`/`enum` key is present, `type` is not a list, and the
format clause fell through. -/
def resolve_plain : Nat → JSON → JSON → Except String PyType
  | 0, _, _ => .error "recursion limit exceeded"
  | fuel + 1, field_info, type_str =>
    if type_str.isStr "array" then handle_array fuel field_info
    else if type_str.isStr "object" then handle_object fuel field_info
    else if is_supported_type type_str then
      match type_str with
      | .str s =>
          (match to_type_mapping s with
           | some t => .ok t
           | none => .error ("KeyError: \x27" ++ s ++ "\x27"))
      | _ => .error "unreachable: supported types are strings"
    else .ok PyType.strT

/-- `ModelBuilder._handle_array`: no `items` key gives the untyped `list`;
otherwise the item type is resolved by `_get_field_type` and wrapped in
`list[...]`. -/
def handle_array : Nat → JSON → Except String PyType
  | 0, _ => .error "recursion limit exceeded"
  | fuel + 1, field_info =>
    match field_info.lookup "items" with
    | none => .ok PyType.listT
    | some items => do
        let t ← get_field_type fuel items
        return PyType.listOf t

/-- `ModelBuilder._handle_object`: no `properties` key gives the untyped
`dict`; otherwise the field is compiled recursively by `build_model` under
`title` or `"NestedModel"`. -/
def handle_object : Nat → JSON → Except String PyType
  | 0, _ => .error "recursion limit exceeded"
  | fuel + 1, field_info =>
    match field_info.lookup "properties" with
    | none => .ok PyType.dictT
    | some _ => do
        let nested_name ← (match field_info.lookup "title" with
          | some (.str s) => Except.ok s
          | some _ => Except.error "TypeError: model name must be a string"
          | none => Except.ok "NestedModel")
        build_model fuel field_info (some nested_name)

/-- `ModelBuilder._handle_any_of`: a falsy value (for a list: the empty list)
falls back to `str`; otherwise every member is resolved by `_get_field_type`
and the results folded into a union, a singleton collapsing to its sole
member.  The empty-`types` branch is unreachable (`mapM` preserves length). -/
def handle_any_of : Nat → JSON → Except String PyType
  | 0, _ => .error "recursion limit exceeded"
  | fuel + 1, v =>
    if v.truthy then
      match v with
      | .arr l => do
          let types ← l.mapM (get_field_type fuel)
          match types with
          | [] => .error "unreachable: mapM of a truthy list is nonempty"
          | [t] => pure t
          | t :: rest => pure (rest.foldl PyType.union t)
      | _ => .error "TypeError: anyOf members must be dicts"
    else .ok PyType.strT

/-- The body of `build_model`'s per-field loop: resolve the type, fetch the
(truthy) description and the `default` (missing modelled as `none`, the `...`
sentinel); a required field is `(type, ...)`, an optional field keeps an
explicit default unchanged, and only an optional field with no explicit
default is widened to `Optional[type]` with default `None`. -/
def build_field : Nat → List JSON → String → JSON →
    Except String (String × PyType × FieldDefault × Option JSON)
  | 0, _, _, _ => .error "recursion limit exceeded"
  | fuel + 1, required, field_name, field_info => do
    let t ← get_field_type fuel field_info
    let desc := field_description field_info
    if required.any (fun r => r.isStr field_name) then
      return (field_name, t, FieldDefault.ellipsis, desc)
    else
      match field_info.lookup "default" with
      | some d => return (field_name, t, FieldDefault.value d, desc)
      | none => return (field_name, PyType.union t PyType.noneT, FieldDefault.value JSON.null, desc)

/-- `ModelBuilder.build_model`: requires root `type == "object"`, resolves
the model name (`model_name or schema.get("title", "DynamicModel")`; Python
truthiness makes an empty `model_name` fall back to the title), reads
`properties` (missing defaults to the empty dict, a non-dict raises) and the
`required` list, and compiles every field in order.  A non-list `required`
value is not modelled (claims only use lists). -/
def build_model : Nat → JSON → Option String → Except String PyType
  | 0, _, _ => .error "recursion limit exceeded"
  | fuel + 1, schema, model_name =>
    match schema.lookup "type" with
    | some t =>
      if t.isStr "object" then do
        let name ← (match model_name with
          | some n => if n == "" then default_model_name schema else Except.ok n
          | none => default_model_name schema)
        let props ← (match schema.lookup "properties" with
          | none => Except.ok []
          | some (.obj kvs) => Except.ok kvs
          | some _ => Except.error "AttributeError: properties is not a dict")
        let fields ← props.mapM (fun kv => build_field fuel (required_list schema) kv.1 kv.2)
        return PyType.model name fields
      else .error ("Top-level schema must be of type \x27object\x27")
    | none => .error ("Top-level schema must be of type \x27object\x27")

end

end ModelBuilder

end AutoStructuredOutput


namespace AutoStructuredOutput

/-! ## Helper lemmas -/

theorem isStr_true_iff (v : JSON) (s : String) : v.isStr s = true ↔ v = .str s := by
  cases v <;> simp [JSON.isStr]

theorem except_bind_ok {α β : Type} (a : α) (f : α → Except String β) :
    (Except.ok a >>= f : Except String β) = f a := rfl

theorem except_bind_err {α β : Type} (e : String) (f : α → Except String β) :
    (Except.error e >>= f : Except String β) = Except.error e := rfl

theorem except_pure {α : Type} (a : α) : (pure a : Except String α) = Except.ok a := rfl

/-- If `mapM f` succeeds on a list, every element's image is a member of the
result. -/
theorem mapM_ok_mem {α β : Type} (f : α → Except String β) :
    ∀ (l : List α) (ys : List β), l.mapM f = Except.ok ys →
      ∀ x ∈ l, ∃ y ∈ ys, f x = Except.ok y := by
  intro l
  induction l with
  | nil => intro ys _ x hx; exact absurd hx (List.not_mem_nil x)
  | cons a l ih =>
    intro ys hmap x hx
    rw [List.mapM_cons] at hmap
    cases hfa : f a with
    | error e =>
        rw [hfa, except_bind_err] at hmap
        exact absurd hmap (by intro h; exact Except.noConfusion h)
    | ok y =>
        rw [hfa, except_bind_ok] at hmap
        cases hrest : l.mapM f with
        | error e =>
            rw [hrest, except_bind_err] at hmap
            exact absurd hmap (by intro h; exact Except.noConfusion h)
        | ok ys' =>
            rw [hrest, except_bind_ok] at hmap
            have hys : y :: ys' = ys := by
              have h' : Except.ok (ε := String) (y :: ys') = Except.ok ys := hmap
              injection h'
            rcases List.mem_cons.mp hx with rfl | hx'
            · exact ⟨y, by rw [← hys]; exact List.mem_cons_self y ys', hfa⟩
            · obtain ⟨y', hy', hfy'⟩ := ih ys' hrest x hx'
              exact ⟨y', by rw [← hys]; exact List.mem_cons_of_mem y hy', hfy'⟩

/-- Bool test used to state claims about the root `type` key: true exactly
when the schema has a top-level `type` equal to the string `"object"`. -/
def root_type_is_object (schema : JSON) : Bool :=
  match schema.lookup "type" with
  | some t => t.isStr "object"
  | none => false

/-- Bool test for a `type` value that is a list of type names. -/
def is_list_type_value : Option JSON → Bool
  | some (.arr _) => true
  | _ => false

end AutoStructuredOutput

namespace AutoStructuredOutput

/-! ## Claim C4 -/

/-- A root schema whose `properties` mapping is present but empty. -/
def exC4 : JSON := .obj [("type", .str "object"), ("properties", .obj [])]

/-- C4 counterexample: the claim says a root schema with an empty `properties`
mapping is rejected, but `validate_schema` accepts it — the code only checks
that the `properties` key is present, never that the mapping is non-empty. -/
theorem C4_counterexample : SchemaValidator.validate_schema 1 exC4 = .ok exC4 := rfl

/-- C4 (amended): `validate_schema` raises a validation error whenever the
top-level `type` key is absent or not `"object"`, or the `properties` key is
absent; but a `properties` mapping that is present and empty is accepted. -/
theorem C4_amended (fuel : Nat) (schema : JSON)
    (h : root_type_is_object schema = false ∨ schema.lookup "properties" = none) :
    (∃ msg, SchemaValidator.validate_schema fuel schema = .error msg) ∧
    SchemaValidator.validate_schema (fuel + 1) exC4 = .ok exC4 := by
  constructor
  · cases hl : schema.lookup "type" with
    | none =>
        exact ⟨_, by unfold SchemaValidator.validate_schema; rw [hl]⟩
    | some t =>
        rcases h with h | h
        · simp only [root_type_is_object, hl] at h
          refine ⟨"Top-level schema must be of type \x27object\x27", ?_⟩
          unfold SchemaValidator.validate_schema
          rw [hl]
          simp only [h]
          rfl
        · by_cases hobj : t.isStr "object" = true
          · refine ⟨"Schema must have a \x27properties\x27 field", ?_⟩
            unfold SchemaValidator.validate_schema
            rw [hl]
            simp only [hobj, h]
            rfl
          · simp only [Bool.not_eq_true] at hobj
            refine ⟨"Top-level schema must be of type \x27object\x27", ?_⟩
            unfold SchemaValidator.validate_schema
            rw [hl]
            simp only [hobj]
            rfl
  · rfl

/-- C4 witness. -/
theorem C4_witness :
    (∃ msg, SchemaValidator.validate_schema 0 (.obj [("type", .str "string")]) = .error msg) ∧
    SchemaValidator.validate_schema 1 exC4 = .ok exC4 :=
  C4_amended 0 (.obj [("type", .str "string")]) (Or.inl rfl)

/-! ## Claim C6 -/

/-- A schema with a field whose `anyOf` is the empty list. -/
def exC6 : JSON :=
  .obj [("type", .str "object"), ("properties", .obj [("f", .obj [("anyOf", .arr [])])])]

/-- C6 counterexample: the claim says an empty `anyOf` raises a validation
error, but `validate_schema` accepts a field whose `anyOf` is the empty list —
the code only checks `isinstance(field_info["anyOf"], list)`. -/
theorem C6_counterexample : SchemaValidator.validate_schema 2 exC6 = .ok exC6 := rfl

/-- C6 (amended): for a field carrying an `anyOf` key, the validator checks
only that its value is a list, raising a validation error when it is not; an
empty `anyOf` list passes validation (the compiler later resolves it to the
string fallback). -/
theorem C6_amended (fuel : Nat) (fname : String) (v : JSON) :
    SchemaValidator.validate_field_info (fuel + 1) fname (.obj [("anyOf", v)]) =
      (match v with
       | .arr _ => Except.ok ()
       | _ => Except.error ("\x27anyOf\x27 for field \x27" ++ fname ++ "\x27 must be a list")) := by
  cases v <;> rfl

/-- C6 witness: a non-list `anyOf` is rejected, the empty list is accepted. -/
theorem C6_witness :
    SchemaValidator.validate_field_info 1 "f" (.obj [("anyOf", .str "x")]) =
        Except.error ("\x27anyOf\x27 for field \x27f\x27 must be a list") ∧
    SchemaValidator.validate_field_info 1 "f" (.obj [("anyOf", .arr [])]) = Except.ok () :=
  ⟨C6_amended 0 "f" (.str "x"), C6_amended 0 "f" (.arr [])⟩

/-! ## Claim C7 -/

/-- C7: whenever the root `type` key is absent or its value is not the string
`"object"`, `validate_schema` raises, and the message is one of the two root
errors — `Schema must have a \x27type\x27 field` or `Top-level schema must be
of type \x27object\x27` — both of which cite the top-level schema. -/
theorem C7_root_rejection (fuel : Nat) (schema : JSON)
    (h : root_type_is_object schema = false) :
    SchemaValidator.validate_schema fuel schema =
        .error "Schema must have a \x27type\x27 field" ∨
    SchemaValidator.validate_schema fuel schema =
        .error "Top-level schema must be of type \x27object\x27" := by
  cases hl : schema.lookup "type" with
  | none =>
      left
      unfold SchemaValidator.validate_schema
      rw [hl]
  | some t =>
      simp only [root_type_is_object, hl] at h
      right
      unfold SchemaValidator.validate_schema
      rw [hl]
      simp only [h]
      rfl

/-- C7 witness. -/
theorem C7_witness :
    SchemaValidator.validate_schema 0 (.obj []) =
        .error "Schema must have a \x27type\x27 field" ∨
    SchemaValidator.validate_schema 0 (.obj []) =
        .error "Top-level schema must be of type \x27object\x27" :=
  C7_root_rejection 0 (.obj []) rfl

/-! ## Claim C9 -/

/-- C9: `validate_enum` raises `enum must have at least one value` on the
empty sequence and `enum values contain duplicates` whenever the values are
not pairwise distinct after the Python `str` cast, so the error message
mentions the duplicate enum values. -/
theorem C9_enum_rejection (vs : List JSON) :
    (vs = [] → SchemaValidator.validate_enum (.arr vs) =
        .error "enum must have at least one value") ∧
    (¬ (vs.map pyStr).Nodup → SchemaValidator.validate_enum (.arr vs) =
        .error "enum values contain duplicates") := by
  constructor
  · rintro rfl; rfl
  · intro hdup
    have hne : vs ≠ [] := by
      rintro rfl
      exact hdup (by simp)
    have hlen : vs.length ≠ (vs.map pyStr).dedup.length := by
      intro hl
      apply hdup
      have hsub : List.Sublist ((vs.map pyStr).dedup) (vs.map pyStr) :=
        List.dedup_sublist _
      have heq : (vs.map pyStr).dedup = vs.map pyStr :=
        hsub.eq_of_length (by rw [← hl, List.length_map])
      rw [← heq]
      exact List.nodup_dedup _
    simp only [SchemaValidator.validate_enum]
    rw [if_neg (by simpa [List.length_eq_zero] using hne), if_pos hlen]

/-- C9 witness: the spec scenario `["active", "inactive", "active"]`. -/
theorem C9_witness :
    SchemaValidator.validate_enum (.arr [.str "active", .str "inactive", .str "active"]) =
      .error "enum values contain duplicates" :=
  (C9_enum_rejection [.str "active", .str "inactive", .str "active"]).2 (by decide)

/-! ## Claim C10 -/

/-- C10: a field definition carrying none of the `anyOf`, `enum` or `type`
keys is resolved exactly as if it carried `type: "string"` (the resolver
defaults the missing `type` to `"string"`), and in particular an empty field
definition compiles to the `str` type. -/
theorem C10_default_type_string (fuel : Nat) (kvs : List (String × JSON))
    (hany : lookupKV kvs "anyOf" = none) (henum : lookupKV kvs "enum" = none)
    (htype : lookupKV kvs "type" = none) :
    ModelBuilder.get_field_type (fuel + 1) (.obj kvs) =
      ModelBuilder.get_field_type (fuel + 1) (.obj (("type", JSON.str "string") :: kvs)) ∧
    ModelBuilder.get_field_type (fuel + 2) (.obj []) = .ok PyType.strT := by
  constructor
  · have hrp : ∀ fi fi' : JSON, ModelBuilder.resolve_plain fuel fi (.str "string") =
        ModelBuilder.resolve_plain fuel fi' (.str "string") := by
      intro fi fi'
      cases fuel with
      | zero => rfl
      | succ f => rfl
    have hfmt : ModelBuilder.format_step (.obj (("type", JSON.str "string") :: kvs)) =
        ModelBuilder.format_step (.obj kvs) := by
      simp [ModelBuilder.format_step, JSON.lookup, lookupKV]
    unfold ModelBuilder.get_field_type
    simp only [lookupKV, hany, henum, htype, hfmt, reduceIte, String.reduceEq,
      Option.getD_some, Option.getD_none]
    cases hstep : ModelBuilder.format_step (.obj kvs) with
    | none => simp only [hstep]; exact hrp _ _
    | some r => simp only [hstep]
  · rfl

/-- C10 witness. -/
theorem C10_witness :
    ModelBuilder.get_field_type 1 (.obj [("description", .str "d")]) =
      ModelBuilder.get_field_type 1 (.obj [("type", JSON.str "string"), ("description", .str "d")]) ∧
    ModelBuilder.get_field_type 2 (.obj []) = .ok PyType.strT :=
  C10_default_type_string 0 [("description", .str "d")] rfl rfl rfl

end AutoStructuredOutput

namespace AutoStructuredOutput

/-! ## Claim C5 -/

/-- C5 counterexample: on a field `{"type": "array", "format": "date"}` the
resolver returns the calendar-date type, not the `list` type the array rule
would produce — the format clause runs before the array/object clauses and
never checks that the type is `"string"`. -/
theorem C5_counterexample :
    ModelBuilder.get_field_type 1 (.obj [("type", .str "array"), ("format", .str "date")]) =
      .ok PyType.dateT ∧
    PyType.dateT ≠ PyType.listT :=
  ⟨rfl, fun h => nomatch h⟩

/-- C5 (amended): whenever a field has no `anyOf`/`enum` key, its `type`
value is not a list, and it carries a supported `format`, `_get_field_type`
resolves to the format mapping regardless of the `type` value — including
`type == "array"` and `type == "object"`, where the format clause takes
priority over the array/object rules. -/
theorem C5_amended (fuel : Nat) (kvs : List (String × JSON)) (s : String) (t : PyType)
    (hany : lookupKV kvs "anyOf" = none)
    (henum : lookupKV kvs "enum" = none)
    (hnotlist : is_list_type_value (lookupKV kvs "type") = false)
    (hfmt : lookupKV kvs "format" = some (.str s))
    (hsupp : stringFormatValues.contains s = true)
    (hmap : to_format_mapping s = some t) :
    ModelBuilder.get_field_type (fuel + 1) (.obj kvs) = .ok t := by
  have hstep : ModelBuilder.format_step (.obj kvs) = some (Except.ok t) := by
    unfold ModelBuilder.format_step
    simp only [JSON.lookup]
    rw [hfmt]
    simp only [hsupp, if_true, hmap]
  unfold ModelBuilder.get_field_type
  simp only [hany, henum]
  cases hty : lookupKV kvs "type" with
  | none => simp only [hty, Option.getD_none, hstep]
  | some v =>
      rw [hty] at hnotlist
      cases v with
      | arr l => exact absurd hnotlist (by simp [is_list_type_value])
      | null => simp only [hty, Option.getD_some, hstep]
      | bool b => simp only [hty, Option.getD_some, hstep]
      | num n => simp only [hty, Option.getD_some, hstep]
      | str u => simp only [hty, Option.getD_some, hstep]
      | obj o => simp only [hty, Option.getD_some, hstep]

/-- C5 witness: a boolean-typed field with a supported format also resolves
to the format type. -/
theorem C5_witness :
    ModelBuilder.get_field_type 1
      (.obj [("type", .str "boolean"), ("format", .str "date-time")]) =
      .ok PyType.datetimeT :=
  C5_amended 0 [("type", .str "boolean"), ("format", .str "date-time")] "date-time"
    PyType.datetimeT rfl rfl rfl rfl (by decide) rfl

/-! ## Claim C1 -/

/-- A schema whose single field has type `"enum"`, a member of the
`SupportedType` vocabulary. -/
def exC1 : JSON :=
  .obj [("type", .str "object"), ("properties", .obj [("f", .obj [("type", .str "enum")])])]

/-- C1 counterexample: `validate_schema` accepts a field of type `"enum"`
(the validator checks membership in `SupportedType`, whose members include
`"enum"` and `"anyOf"`), but `build_model` fails on the very same schema with
a `KeyError` because the primitive mapping has no `"enum"` key — so it is not
true that the compiler can resolve every type string the validator accepts. -/
theorem C1_counterexample :
    SchemaValidator.validate_schema 2 exC1 = .ok exC1 ∧
    ModelBuilder.build_model 4 exC1 none = .error "KeyError: \x27enum\x27" :=
  ⟨rfl, rfl⟩

/-- C1 (amended): the shared vocabulary guarantee holds for the seven
primitive type names only — every supported type string other than the
structural keywords `"enum"` and `"anyOf"` has an entry in the primitive
mapping, and a field carrying it resolves to exactly that entry. -/
theorem C1_amended (s : String) (fuel : Nat)
    (h1 : is_supported_type (.str s) = true)
    (h2 : s ≠ "enum") (h3 : s ≠ "anyOf") :
    (to_type_mapping s).isSome = true ∧
    ModelBuilder.get_field_type (fuel + 3) (.obj [("type", .str s)]) =
      .ok ((to_type_mapping s).getD PyType.strT) := by
  have hs : s ∈ supportedTypeValues := by
    have h1' : supportedTypeValues.contains s = true := by
      simpa [is_supported_type] using h1
    exact List.elem_iff.mp h1'
  fin_cases hs
  · exact ⟨rfl, rfl⟩
  · exact ⟨rfl, rfl⟩
  · exact ⟨rfl, rfl⟩
  · exact ⟨rfl, rfl⟩
  · exact ⟨rfl, rfl⟩
  · exact ⟨rfl, rfl⟩
  · exact ⟨rfl, rfl⟩
  · exact absurd rfl h2
  · exact absurd rfl h3

/-- C1 witness. -/
theorem C1_witness :
    (to_type_mapping "boolean").isSome = true ∧
    ModelBuilder.get_field_type 3 (.obj [("type", .str "boolean")]) =
      .ok ((to_type_mapping "boolean").getD PyType.strT) :=
  C1_amended "boolean" 0 (by decide) (by decide) (by decide)

end AutoStructuredOutput

namespace AutoStructuredOutput

/-! ## Claim C8 -/

/-- C8: a field with an `anyOf` key dispatches to `_handle_any_of`; an empty
`anyOf` resolves to the string fallback, a single-member `anyOf` collapses to
that member's type as resolved by `_get_field_type` (no union wrapper), and a
multi-member `anyOf` folds the member types, resolved by the same
`_get_field_type`, into a union. -/
theorem C8_anyOf_union (fuel : Nat) (kvs : List (String × JSON)) (v a b : JSON)
    (rest : List JSON) (t t2 : PyType) (ts2 : List PyType)
    (hany : lookupKV kvs "anyOf" = some v)
    (ha : ModelBuilder.get_field_type fuel a = .ok t)
    (hm : (b :: rest).mapM (ModelBuilder.get_field_type fuel) = .ok (t2 :: ts2)) :
    ModelBuilder.get_field_type (fuel + 1) (.obj kvs) = ModelBuilder.handle_any_of fuel v ∧
    ModelBuilder.handle_any_of (fuel + 1) (.arr []) = .ok PyType.strT ∧
    ModelBuilder.handle_any_of (fuel + 1) (.arr [a]) = .ok t ∧
    ModelBuilder.handle_any_of (fuel + 1) (.arr (a :: b :: rest)) =
      .ok ((t2 :: ts2).foldl PyType.union t) := by
  refine ⟨?_, rfl, ?_, ?_⟩
  · unfold ModelBuilder.get_field_type
    simp only [hany]
  · unfold ModelBuilder.handle_any_of
    simp only [List.mapM_cons, List.mapM_nil, ha, except_bind_ok, except_pure]
    rfl
  · unfold ModelBuilder.handle_any_of
    simp only [List.mapM_cons, ha, hm, except_bind_ok, except_pure]
    rfl

/-- C8 witness: the spec scenario `anyOf: [{"type":"string"},{"type":"integer"}]`. -/
theorem C8_witness :
    ModelBuilder.get_field_type 3
        (.obj [("anyOf", .arr [.obj [("type", .str "string")], .obj [("type", .str "integer")]])]) =
      ModelBuilder.handle_any_of 2
        (.arr [.obj [("type", .str "string")], .obj [("type", .str "integer")]]) ∧
    ModelBuilder.handle_any_of 3 (.arr []) = .ok PyType.strT ∧
    ModelBuilder.handle_any_of 3 (.arr [.obj [("type", .str "string")]]) = .ok PyType.strT ∧
    ModelBuilder.handle_any_of 3
        (.arr [.obj [("type", .str "string")], .obj [("type", .str "integer")]]) =
      .ok ([PyType.intT].foldl PyType.union PyType.strT) :=
  C8_anyOf_union 2
    [("anyOf", .arr [.obj [("type", .str "string")], .obj [("type", .str "integer")]])]
    (.arr [.obj [("type", .str "string")], .obj [("type", .str "integer")]])
    (.obj [("type", .str "string")]) (.obj [("type", .str "integer")]) []
    PyType.strT PyType.intT [] rfl rfl rfl

/-! ## Claims C2 and C3: shared compilation lemma -/

/-- One-step equation for `build_model` at successor fuel (definitional). -/
theorem build_model_succ (fuel : Nat) (schema : JSON) (model_name : Option String) :
    ModelBuilder.build_model (fuel + 1) schema model_name =
      (match schema.lookup "type" with
       | some t =>
         if t.isStr "object" then do
           let name ← (match model_name with
             | some n => if n == "" then ModelBuilder.default_model_name schema
                         else Except.ok n
             | none => ModelBuilder.default_model_name schema)
           let props ← (match schema.lookup "properties" with
             | none => Except.ok []
             | some (.obj kvs) => Except.ok kvs
             | some _ => Except.error "AttributeError: properties is not a dict")
           let fields ← props.mapM
             (fun kv => ModelBuilder.build_field fuel (ModelBuilder.required_list schema) kv.1 kv.2)
           pure (PyType.model name fields)
         else .error "Top-level schema must be of type \x27object\x27"
       | none => .error "Top-level schema must be of type \x27object\x27") := rfl

/-- One-step equation for `build_field` at successor fuel (definitional). -/
theorem build_field_succ (fuel : Nat) (required : List JSON) (field_name : String)
    (field_info : JSON) :
    ModelBuilder.build_field (fuel + 1) required field_name field_info =
      (do
        let t ← ModelBuilder.get_field_type fuel field_info
        let desc := ModelBuilder.field_description field_info
        if required.any (fun r => r.isStr field_name) then
          return (field_name, t, FieldDefault.ellipsis, desc)
        else
          match field_info.lookup "default" with
          | some d => return (field_name, t, FieldDefault.value d, desc)
          | none =>
              return (field_name, PyType.union t PyType.noneT, FieldDefault.value JSON.null,
                desc)) := rfl

/-- A successful `build_model` run compiles every property through
`build_field`: each `(name, definition)` pair of the schema's `properties`
contributes its `build_field` result to the model's field list. -/
theorem build_model_field_mem (fuel : Nat) (schema : JSON) (kvs : List (String × JSON))
    (fname : String) (fi : JSON) (name : String)
    (fields : List (String × PyType × FieldDefault × Option JSON))
    (hprops : schema.lookup "properties" = some (.obj kvs))
    (hmem : (fname, fi) ∈ kvs)
    (hbuild : ModelBuilder.build_model (fuel + 1) schema none = .ok (.model name fields)) :
    ∃ y ∈ fields,
      ModelBuilder.build_field fuel (ModelBuilder.required_list schema) fname fi = .ok y := by
  rw [build_model_succ] at hbuild
  cases hty : schema.lookup "type" with
  | none =>
      simp only [hty] at hbuild
      exact Except.noConfusion hbuild
  | some tv =>
      simp only [hty] at hbuild
      by_cases hobj : tv.isStr "object" = true
      · simp only [hobj, reduceIte] at hbuild
        cases hnm : ModelBuilder.default_model_name schema with
        | error e =>
            simp only [hnm, except_bind_err] at hbuild
            exact Except.noConfusion hbuild
        | ok nm =>
            simp only [hnm, except_bind_ok, hprops, except_pure] at hbuild
            cases hfs : kvs.mapM
                (fun kv => ModelBuilder.build_field fuel (ModelBuilder.required_list schema) kv.1 kv.2) with
            | error e =>
                simp only [hfs, except_bind_err] at hbuild
                exact Except.noConfusion hbuild
            | ok fs =>
                simp only [hfs, except_bind_ok, except_pure] at hbuild
                obtain ⟨y, hy, hfy⟩ := mapM_ok_mem _ kvs fs hfs (fname, fi) hmem
                refine ⟨y, ?_, hfy⟩
                injection hbuild with h1
                injection h1 with hn hf
                rw [← hf]
                exact hy
      · simp only [Bool.not_eq_true] at hobj
        simp only [hobj, reduceIte] at hbuild
        exact Except.noConfusion hbuild

end AutoStructuredOutput

namespace AutoStructuredOutput

/-! ## Claim C2 -/

/-- A schema with a single optional field that carries an explicit default. -/
def exC2 : JSON :=
  .obj [("type", .str "object"),
        ("properties", .obj [("f", .obj [("type", .str "integer"), ("default", .num 5)])])]

/-- C2 counterexample: the claim says every non-required field is widened to
"type OR null", including fields with an explicit default — but on a
non-required integer field with default `5` the compiled annotation stays the
plain integer type (no `Optional` widening); only the default is attached. -/
theorem C2_counterexample :
    ModelBuilder.build_model 4 exC2 none =
      .ok (.model "DynamicModel" [("f", PyType.intT, FieldDefault.value (.num 5), none)]) ∧
    PyType.intT ≠ PyType.union PyType.intT PyType.noneT :=
  ⟨rfl, fun h => nomatch h⟩

/-- C2 (amended): a non-required field is widened to `Optional[type]` with
default `None` exactly when the schema supplies no explicit `default`; a
non-required field with an explicit `default` keeps its resolved type
unwidened and that default. -/
theorem C2_amended (fuel : Nat) (schema : JSON) (kvs : List (String × JSON))
    (fname : String) (fi : JSON) (t : PyType) (name : String)
    (fields : List (String × PyType × FieldDefault × Option JSON))
    (hprops : schema.lookup "properties" = some (.obj kvs))
    (hmem : (fname, fi) ∈ kvs)
    (hreq : (ModelBuilder.required_list schema).any (fun r => r.isStr fname) = false)
    (hdef : fi.lookup "default" = none)
    (ht : ModelBuilder.get_field_type fuel fi = .ok t)
    (hbuild : ModelBuilder.build_model (fuel + 2) schema none = .ok (.model name fields)) :
    (fname, PyType.union t PyType.noneT, FieldDefault.value JSON.null,
      ModelBuilder.field_description fi) ∈ fields := by
  obtain ⟨y, hy, hfy⟩ :=
    build_model_field_mem (fuel + 1) schema kvs fname fi name fields hprops hmem hbuild
  rw [build_field_succ] at hfy
  simp only [ht, except_bind_ok, hreq, Bool.false_eq_true, if_false, hdef,
    except_pure] at hfy
  injection hfy with h
  rw [h]
  exact hy

/-- C2 witness. -/
theorem C2_witness :
    ("f", PyType.union PyType.intT PyType.noneT, FieldDefault.value JSON.null,
      ModelBuilder.field_description (JSON.obj [("type", JSON.str "integer")])) ∈
      ([("f", PyType.union PyType.intT PyType.noneT, FieldDefault.value JSON.null,
        (none : Option JSON))] :
        List (String × PyType × FieldDefault × Option JSON)) :=
  C2_amended 2
    (.obj [("type", .str "object"),
           ("properties", .obj [("f", .obj [("type", .str "integer")])])])
    [("f", .obj [("type", .str "integer")])]
    "f" (.obj [("type", .str "integer")]) PyType.intT "DynamicModel"
    [("f", PyType.union PyType.intT PyType.noneT, FieldDefault.value JSON.null, none)]
    rfl (List.mem_cons_self _ _) rfl rfl rfl rfl

/-! ## Claim C3 -/

/-- A schema whose single field is required and carries an explicit default. -/
def exC3 : JSON :=
  .obj [("type", .str "object"),
        ("properties", .obj [("f", .obj [("type", .str "integer"), ("default", .num 5)])]),
        ("required", .arr [.str "f"])]

/-- C3 counterexample: the claim says a required field with a supplied default
carries that default so the caller may omit it — but the compiler gives every
required field the `...` marker (mandatory, no default), ignoring the schema's
`default: 5` entirely. -/
theorem C3_counterexample :
    ModelBuilder.build_model 4 exC3 none =
      .ok (.model "DynamicModel" [("f", PyType.intT, FieldDefault.ellipsis, none)]) ∧
    FieldDefault.ellipsis ≠ FieldDefault.value (.num 5) :=
  ⟨rfl, fun h => nomatch h⟩

/-- C3 (amended): a field listed in `required` always compiles to a mandatory
field with the `...` marker; any supplied schema `default` is ignored, so the
caller cannot omit the field in input. -/
theorem C3_amended (fuel : Nat) (schema : JSON) (kvs : List (String × JSON))
    (fname : String) (fi : JSON) (t : PyType) (name : String)
    (fields : List (String × PyType × FieldDefault × Option JSON))
    (hprops : schema.lookup "properties" = some (.obj kvs))
    (hmem : (fname, fi) ∈ kvs)
    (hreq : (ModelBuilder.required_list schema).any (fun r => r.isStr fname) = true)
    (ht : ModelBuilder.get_field_type fuel fi = .ok t)
    (hbuild : ModelBuilder.build_model (fuel + 2) schema none = .ok (.model name fields)) :
    (fname, t, FieldDefault.ellipsis, ModelBuilder.field_description fi) ∈ fields := by
  obtain ⟨y, hy, hfy⟩ :=
    build_model_field_mem (fuel + 1) schema kvs fname fi name fields hprops hmem hbuild
  rw [build_field_succ] at hfy
  simp only [ht, except_bind_ok, hreq, if_true, except_pure] at hfy
  injection hfy with h
  rw [h]
  exact hy

/-- C3 witness: the required field of `exC3` itself. -/
theorem C3_witness :
    ("f", PyType.intT, FieldDefault.ellipsis,
      ModelBuilder.field_description
        (JSON.obj [("type", JSON.str "integer"), ("default", JSON.num 5)])) ∈
      ([("f", PyType.intT, FieldDefault.ellipsis, (none : Option JSON))] :
        List (String × PyType × FieldDefault × Option JSON)) :=
  C3_amended 2 exC3
    [("f", .obj [("type", .str "integer"), ("default", .num 5)])]
    "f" (.obj [("type", .str "integer"), ("default", .num 5)]) PyType.intT "DynamicModel"
    [("f", PyType.intT, FieldDefault.ellipsis, none)]
    rfl (List.mem_cons_self _ _) rfl rfl rfl

end AutoStructuredOutput
